import Mathlib

/-!
# X-Fair workflow orchestration engine — verification development

Shallow embedding of the workflow orchestration core of the X-Fair personal
finance agent, together with proofs of its specified properties.

Two independently evolving workflow versions exist in the repository; both are
embedded here, as the specified behaviours live partly in each:

* `backend/core/langgraph_workflow.py` — the `FinancialPlanningWorkflow` class
  over the `FinanceState` TypedDict (stage router, conditional graph,
  execution-decision gate, streaming trace executor).
* `backend/core/workflow.py` with the node classes under `backend/nodes/`
  over the `FinanceAgentState` TypedDict of `backend/core/state.py`
  (hybrid intent classifier, per-node failure isolation, action executor).

Modelling conventions:
* Python dicts with string keys become association lists
  (`List (String × α)`) with Python's insertion-order update semantics
  (`dictInsert`); `dict.get(k, d)` becomes `(List.lookup k m).getD d`.
* Python floats become `ℚ` (all arithmetic in the relevant code paths is
  exact decimal arithmetic; no claim concerns float rounding).
* Python exceptions become `Except String`; `try/except` boundaries become
  explicit matches, preserving in-place mutations performed before the raise.
* External collaborators (the Groq chat endpoint, the LLM classifier) become
  oracle parameters; the Groq `chat` helper itself catches every transport
  error and returns an apology string (`core/groq_client.py` lines 52-72),
  so it is modelled as a total function `String → String`.
* Opaque analysis payloads whose contents the spec places out of scope
  ("the specific content produced by each analysis node" — spec §1) are
  carried as tagged constructors; the keys they are stored under and the
  control flow that produces them follow the source exactly.
-/

namespace XFair

/-- Python-dict insertion (`m[k] = v`): if `k` is present, replace its value
in place (insertion order preserved); otherwise append the new binding. -/
def dictInsert {α : Type} : List (String × α) → String → α → List (String × α)
  | [], k, v => [(k, v)]
  | (k', v') :: rest, k, v =>
    if k' = k then (k, v) :: rest else (k', v') :: dictInsert rest k v

/-- Python-dict read with default (`m.get(k, d)`). -/
def dictGet {α : Type} (m : List (String × α)) (k : String) (d : α) : α :=
  (m.lookup k).getD d

/-- Contiguous-sublist test on character lists (`needle` occurs inside
`hay`), the meaning of Python's `needle in hay` on strings. -/
def containsSub (hay needle : List Char) : Bool :=
  needle.isPrefixOf hay ||
    match hay with
    | [] => false
    | _ :: t => containsSub t needle

/-- Python `needle in haystack` substring test on strings. -/
def strContains (haystack needle : String) : Bool :=
  containsSub haystack.data needle.data

/-- Python `max(items, key=λ x: x[1])` over a non-empty association list:
returns the first entry whose value is maximal (Python's `max` keeps the
earlier element on ties). -/
def argmaxFirst {α : Type} : List (α × ℚ) → Option (α × ℚ)
  | [] => none
  | x :: xs => some (xs.foldl (fun best y => if y.2 > best.2 then y else best) x)

/-! ## Part 1 — `backend/core/langgraph_workflow.py`

The `FinancialPlanningWorkflow` over the `FinanceState` TypedDict
(lines 25-60 of the source). -/

/-- `GroqClient._classify_intent` result plus the chat response, as returned
by `GroqClient.analyze_financial_query` (`core/groq_client.py` lines 81-116). -/
structure GroqQueryResult where
  response : String
  intent : String
  model_used : String
  context_used : Bool
  deriving Repr, DecidableEq

/-- `GroqClient._classify_intent` (`core/groq_client.py` lines 122-159):
first-match keyword classification over the lowered query. -/
def classifyIntentGroq (query : String) : String :=
  let q := query.toLower
  let anyIn := fun (ws : List String) => ws.any (fun w => strContains q w)
  if anyIn ["budget", "spending", "expense", "cost", "allocat"] then
    "budget_analysis"
  else if anyIn ["invest", "portfolio", "stock", "bond", "fund", "asset", "diversif"] then
    "investment_advice"
  else if anyIn ["goal", "save", "saving", "target", "plan", "objective"] then
    "goal_planning"
  else if anyIn ["transaction", "payment", "purchase", "bill", "receipt"] then
    "transaction_analysis"
  else if anyIn ["risk", "insurance", "emergency", "protect", "coverage"] then
    "risk_assessment"
  else if anyIn ["market", "economic", "trend", "forecast", "outlook"] then
    "market_analysis"
  else if anyIn ["tax", "deduction", "ira", "retirement", "401k"] then
    "tax_planning"
  else if anyIn ["debt", "loan", "credit", "mortgage", "refinanc"] then
    "debt_management"
  else
    "general_inquiry"

/-- `GroqClient.analyze_financial_query` (`core/groq_client.py` lines 81-116):
one chat call (the fixed system-prompt scaffolding around the user query is
elided; only the response string matters downstream) plus the keyword
intent classification. `context_used = bool(context)` is dict truthiness. -/
def analyzeFinancialQuery (chat : String → String) (user_query : String)
    (context : List (String × String)) : GroqQueryResult :=
  { response := chat user_query
    intent := classifyIntentGroq user_query
    model_used := "groq-llama3-8b"
    context_used := !context.isEmpty }

/-- One entry of the `explanations` accumulator.  Each node appends a dict
with a `"step"` and `"what"` key; the per-node `"input"`/`"decision"`
snapshot sub-dicts are heterogeneous state snapshots and are elided (no
claim inspects them). -/
structure Explanation where
  step : String
  what : String
  deriving Repr, DecidableEq

/-- Payloads written into `analysis_results` by the LangGraph workflow nodes.
Each constructor corresponds to one node's dict literal; literal contents
that no claim inspects are elided (spec §1 places node payload contents out
of scope), while LLM-produced strings are carried. -/
inductive LGPayload where
  | onboarding (guidance : String)
  | profileStatus (status : String)
  | intentAnalysis (result : GroqQueryResult)
  | parsedStatements
  | budgetAnalysisLG (recommendations : String)
  | goalPlanning
  | taskDecomposition (plan : String)
  | advancedReasoning (analysis : String)
  | knowledgeBase
  | mlAnalysis
  | financeTools (tools_results : List (String × String))
  | execution (mode : String)
  | dashboard
  | notifications
  | learning
  deriving Repr, DecidableEq

/-- The `FinanceState` TypedDict (`core/langgraph_workflow.py` lines 25-60).
`context` values are the string-valued entries the workflow reads
(`experience_level`); `messages` entries are `{role, content}` pairs. -/
structure FinanceState where
  user_id : String := ""
  user_query : String := ""
  current_stage : String := ""
  system_stage : String := ""
  intent : String := ""
  context : List (String × String) := []
  response : String := ""
  analysis_results : List (String × LGPayload) := []
  next_action : String := ""
  tools_used : List String := []
  messages : List (String × String) := []
  consent_given : Bool := false
  profile_complete : Bool := false
  execute_action : Bool := false
  explanations : List Explanation := []
  deriving Repr, DecidableEq

namespace FinanceState

/-- `WorkflowStage` enum values (`core/langgraph_workflow.py` lines 16-22). -/
def stageStarted : String := "started"

def stageMvp : String := "mvp"

def stageIntermediate : String := "intermediate"

def stageAdvanced : String := "advanced"

end FinanceState

/-- Shorthand: a node first appends its identifier to `tools_used` and an
explanation entry (`state["tools_used"].append(...)`,
`state["explanations"].append({...})`). -/
def pushTrace (s : FinanceState) (step what : String) : FinanceState :=
  { s with tools_used := s.tools_used ++ [step]
           explanations := s.explanations ++ [⟨step, what⟩] }

/-- `FinancialPlanningWorkflow._system_stage_router`
(`core/langgraph_workflow.py` lines 201-232). -/
def systemStageRouter (s : FinanceState) : FinanceState :=
  let s := pushTrace s "system_stage_router"
    "Determine workflow stage based on consent and profile"
  if ¬ s.consent_given then
    { s with current_stage := FinanceState.stageStarted }
  else if ¬ s.profile_complete then
    { s with current_stage := FinanceState.stageMvp }
  else
    let experience_level := dictGet s.context "experience_level" "beginner"
    if experience_level = "advanced" then
      { s with current_stage := FinanceState.stageAdvanced }
    else if experience_level = "intermediate" then
      { s with current_stage := FinanceState.stageIntermediate }
    else
      { s with current_stage := FinanceState.stageMvp }

/-- `_onboarding_node` (lines 234-268). -/
def onboardingNode (chat : String → String) (s : FinanceState) : FinanceState :=
  let s := pushTrace s "onboarding_node"
    "Analyze onboarding requirements and prepare profile fields"
  let result := chat ("Analyze this user query for onboarding needs: " ++ s.user_query)
  { s with analysis_results :=
      dictInsert s.analysis_results "onboarding" (.onboarding result) }

/-- `_store_consent_profile` (lines 270-278): appends its tool identifier but
no explanation entry, marks consent given. -/
def storeConsentProfile (s : FinanceState) : FinanceState :=
  let s := { s with tools_used := s.tools_used ++ ["store_consent_profile"] }
  { s with consent_given := true
           analysis_results :=
             dictInsert s.analysis_results "profile_status"
               (.profileStatus "consent_stored") }

/-- `_intent_classifier` (lines 280-298). -/
def intentClassifierLG (chat : String → String) (s : FinanceState) : FinanceState :=
  let s := pushTrace s "intent_classifier"
    "Classify the user's intent using Groq + heuristics"
  let result := analyzeFinancialQuery chat s.user_query s.context
  { s with intent := result.intent
           analysis_results :=
             dictInsert s.analysis_results "intent_analysis" (.intentAnalysis result) }

/-- `_statement_parser` (lines 300-317). -/
def statementParserLG (s : FinanceState) : FinanceState :=
  let s := pushTrace s "statement_parser"
    "Parse statements (placeholder until uploads supported)"
  { s with analysis_results :=
      dictInsert s.analysis_results "parsed_statements" .parsedStatements }

/-- `_budget_analyzer` (lines 319-354). -/
def budgetAnalyzerLG (chat : String → String) (s : FinanceState) : FinanceState :=
  let s := pushTrace s "budget_analyzer"
    "Generate budget insights based on query and context"
  let result := chat ("Analyze this financial query for budget insights: " ++ s.user_query)
  { s with analysis_results :=
      dictInsert s.analysis_results "budget_analysis" (.budgetAnalysisLG result) }

/-- `_goal_planner` (lines 356-372). -/
def goalPlannerLG (s : FinanceState) : FinanceState :=
  let s := pushTrace s "goal_planner" "Suggest goals and timelines"
  { s with analysis_results :=
      dictInsert s.analysis_results "goal_planning" .goalPlanning }

/-- `_task_decomposer` (lines 374-398). -/
def taskDecomposer (chat : String → String) (s : FinanceState) : FinanceState :=
  let s := pushTrace s "task_decomposer"
    "Decompose complex request into actionable steps"
  let result := chat ("Break down this complex financial request into actionable steps: "
    ++ s.user_query)
  { s with analysis_results :=
      dictInsert s.analysis_results "task_decomposition" (.taskDecomposition result) }

/-- `_reasoning_engine` (lines 400-436). -/
def reasoningEngine (chat : String → String) (s : FinanceState) : FinanceState :=
  let s := pushTrace s "reasoning_engine"
    "Apply advanced reasoning to synthesize recommendations"
  let result := chat ("Apply advanced financial reasoning to: " ++ s.user_query)
  { s with analysis_results :=
      dictInsert s.analysis_results "advanced_reasoning" (.advancedReasoning result) }

/-- `_rag_knowledge_retriever` (lines 438-458). -/
def ragKnowledgeRetriever (s : FinanceState) : FinanceState :=
  let s := pushTrace s "rag_knowledge_retriever"
    "Retrieve relevant knowledge for the topic"
  { s with analysis_results :=
      dictInsert s.analysis_results "knowledge_base" .knowledgeBase }

/-- `_ml_models` (lines 460-477). -/
def mlModels (s : FinanceState) : FinanceState :=
  let s := pushTrace s "ml_models" "Run forecasting and optimization models"
  { s with analysis_results :=
      dictInsert s.analysis_results "ml_analysis" .mlAnalysis }

/-- `_finance_tools` (lines 479-501). -/
def financeTools (s : FinanceState) : FinanceState :=
  let s := pushTrace s "finance_tools" "Use tools based on intent"
  let tools_results : List (String × String) :=
    if s.intent = "budget_analysis" then
      [("budget_manager", "Budget analysis completed")]
    else if s.intent = "investment_advice" then
      [("portfolio_tracker", "Portfolio analysis ready")]
    else if s.intent = "market_analysis" then
      [("market_data", "Market insights generated")]
    else []
  { s with analysis_results :=
      dictInsert s.analysis_results "finance_tools" (.financeTools tools_results) }

/-- `_action_executor` (lines 503-528): sets `execute_action` from
`current_stage == WorkflowStage.ADVANCED.value` alone. -/
def actionExecutor (s : FinanceState) : FinanceState :=
  let s := pushTrace s "action_executor"
    "Decide whether to execute actions or provide suggestions"
  if s.current_stage = FinanceState.stageAdvanced then
    { s with execute_action := true
             analysis_results :=
               dictInsert s.analysis_results "execution" (.execution "execute_with_2fa") }
  else
    { s with execute_action := false
             analysis_results :=
               dictInsert s.analysis_results "execution" (.execution "suggestions_only") }

/-- `_dashboard_generator` (lines 530-546). -/
def dashboardGenerator (s : FinanceState) : FinanceState :=
  let s := pushTrace s "dashboard_generator"
    "Prepare dashboard sections and suggestions"
  { s with analysis_results :=
      dictInsert s.analysis_results "dashboard" .dashboard }

/-- `_notification_sender` (lines 548-563). -/
def notificationSender (s : FinanceState) : FinanceState :=
  let s := pushTrace s "notification_sender" "Send relevant alerts to the user"
  { s with analysis_results :=
      dictInsert s.analysis_results "notifications" .notifications }

/-- `_feedback_collector` (lines 565-598): builds the final response via one
chat call and sets `next_action` from the current stage. -/
def feedbackCollector (chat : String → String) (s : FinanceState) : FinanceState :=
  let s := pushTrace s "feedback_collector"
    "Summarize findings and propose next action"
  let result := chat ("Based on the complete financial analysis, provide a helpful response to the user. User Query: " ++ s.user_query)
  let s := { s with response := result }
  if s.current_stage = FinanceState.stageStarted then
    { s with next_action := "Complete your profile setup" }
  else if s.current_stage = FinanceState.stageMvp then
    { s with next_action := "Review budget recommendations" }
  else
    { s with next_action := "Implement suggested strategies" }

/-- `_continuous_learning` (lines 600-615). -/
def continuousLearning (s : FinanceState) : FinanceState :=
  let s := pushTrace s "continuous_learning"
    "Record feedback for future improvements"
  { s with analysis_results :=
      dictInsert s.analysis_results "learning" .learning }

/-- `_route_by_stage` (lines 192-194): the stage-dispatch conditional edge
predicate, `state.get("current_stage", "started")`. -/
def routeByStage (s : FinanceState) : String :=
  s.current_stage

/-- `_check_execution_decision` (lines 196-198): the execution decision gate. -/
def checkExecutionDecision (s : FinanceState) : String :=
  if s.execute_action then "execute" else "suggestions_only"

/-- The advanced-stage chain upstream of the execution decision gate,
per the `_add_workflow_edges` "Advanced stage flow" edges (lines 135-138):
`task_decomposer → reasoning_engine → ml_models → action_executor`. -/
def advancedToGate (chat : String → String) (s : FinanceState) : FinanceState :=
  actionExecutor (mlModels (reasoningEngine chat (taskDecomposer chat s)))

/-- One full run of the compiled graph, entry point `system_stage_router`,
following the edge registrations of `_add_workflow_edges` (lines 105-154).
Note: the source registers `reasoning_engine → finance_tools` (line 132,
intermediate flow) and `reasoning_engine → ml_models` (line 137, advanced
flow); the embedding resolves the successor per the chain being run, which
is how the source's comment blocks and the spec read the diagram. -/
def runWorkflow (chat : String → String) (s0 : FinanceState) : FinanceState :=
  let s1 := systemStageRouter s0
  match routeByStage s1 with
  | "started" =>
    feedbackCollector chat (dashboardGenerator (goalPlannerLG (budgetAnalyzerLG chat
      (statementParserLG (intentClassifierLG chat
        (storeConsentProfile (onboardingNode chat s1)))))))
  | "mvp" =>
    feedbackCollector chat (dashboardGenerator (goalPlannerLG (budgetAnalyzerLG chat
      (statementParserLG (intentClassifierLG chat s1)))))
  | "intermediate" =>
    feedbackCollector chat (notificationSender (financeTools
      (reasoningEngine chat (ragKnowledgeRetriever s1))))
  | "advanced" =>
    let sGate := advancedToGate chat s1
    match checkExecutionDecision sGate with
    | "execute" => continuousLearning sGate
    | _ => feedbackCollector chat sGate
  | _ => s1

/-- `stream_trace` event (`{"event": str, "data": {...}}`, lines 166-189). -/
inductive EventData where
  | message (m : String)
  | finalState (s : FinanceState)
  deriving Repr, DecidableEq

/-- One SSE-style stream event. -/
structure StreamEvent where
  event : String
  data : EventData
  deriving Repr, DecidableEq

/-- The fallback branch of `stream_trace` (lines 183-189): emit `start`,
run the graph to completion, then either `end` with the final state or a
terminal `error` carrying the exception message.  The underlying
`run_async` call is the only raise site inside the `try`, so it is passed
in as an `Except` outcome. -/
def streamTraceFallback (run : Except String FinanceState) : List StreamEvent :=
  { event := "start", data := .message "Workflow started" } ::
    match run with
    | .ok final => [{ event := "end", data := .finalState final }]
    | .error e => [{ event := "error", data := .message e }]

/-! ## Part 2 — `backend/core/state.py` and the node classes

The `FinanceAgentState` TypedDict and the node classes of `backend/nodes/`
wired by `backend/core/workflow.py` (`FinanceWorkflow`). -/

/-- `UserState` enum (`core/state.py` lines 18-23). -/
inductive UserState where
  | NEW
  | ONBOARDED
  | ACTIVE
  deriving Repr, DecidableEq

/-- `UserProfile` dataclass (`core/state.py` lines 25-36). -/
structure UserProfile where
  user_id : String
  name : Option String := none
  email : Option String := none
  age : Option Int := none
  income : Option ℚ := none
  risk_tolerance : Option String := none
  financial_goals : Option (List String) := none
  consent_given : Bool := false
  stage : UserState := .NEW
  deriving Repr, DecidableEq

/-- `SystemStage` enum (`core/state.py` lines 10-15). -/
inductive SystemStage where
  | STARTED
  | INTERMEDIATE
  | MVP
  | ADVANCED
  deriving Repr, DecidableEq

/-- `FinancialIntent` enum (`core/state.py` lines 71-92). -/
inductive FinancialIntent where
  | BUDGETING
  | GOAL_PLANNING
  | BASIC_INSIGHTS
  | TAX_ANALYSIS
  | MARKET_DATA
  | PORTFOLIO_TRACKING
  | TASK_DECOMPOSITION
  | ML_FORECASTING
  | PORTFOLIO_OPTIMIZATION
  | AUTOMATED_EXECUTION
  | ONBOARDING
  | GENERAL_QUERY
  | UNKNOWN
  deriving Repr, DecidableEq

namespace FinancialIntent

/-- The `.value` of each enum member. -/
def value : FinancialIntent → String
  | .BUDGETING => "budgeting"
  | .GOAL_PLANNING => "goal_planning"
  | .BASIC_INSIGHTS => "basic_insights"
  | .TAX_ANALYSIS => "tax_analysis"
  | .MARKET_DATA => "market_data"
  | .PORTFOLIO_TRACKING => "portfolio_tracking"
  | .TASK_DECOMPOSITION => "task_decomposition"
  | .ML_FORECASTING => "ml_forecasting"
  | .PORTFOLIO_OPTIMIZATION => "portfolio_optimization"
  | .AUTOMATED_EXECUTION => "automated_execution"
  | .ONBOARDING => "onboarding"
  | .GENERAL_QUERY => "general_query"
  | .UNKNOWN => "unknown"

/-- Python `FinancialIntent[name]` lookup by enum member name (raises
`KeyError`, i.e. `none`, for non-members). -/
def ofName : String → Option FinancialIntent
  | "BUDGETING" => some .BUDGETING
  | "GOAL_PLANNING" => some .GOAL_PLANNING
  | "BASIC_INSIGHTS" => some .BASIC_INSIGHTS
  | "TAX_ANALYSIS" => some .TAX_ANALYSIS
  | "MARKET_DATA" => some .MARKET_DATA
  | "PORTFOLIO_TRACKING" => some .PORTFOLIO_TRACKING
  | "TASK_DECOMPOSITION" => some .TASK_DECOMPOSITION
  | "ML_FORECASTING" => some .ML_FORECASTING
  | "PORTFOLIO_OPTIMIZATION" => some .PORTFOLIO_OPTIMIZATION
  | "AUTOMATED_EXECUTION" => some .AUTOMATED_EXECUTION
  | "ONBOARDING" => some .ONBOARDING
  | "GENERAL_QUERY" => some .GENERAL_QUERY
  | "UNKNOWN" => some .UNKNOWN
  | _ => none

end FinancialIntent

/-- One transactions-list entry, a Python dict whose keys may be absent
(`statement_parser_node.py` sample data has all four; `_analyze_budget`
raises `KeyError` on a missing key). -/
structure Txn where
  date : Option String := none
  description : Option String := none
  amount : Option ℚ := none
  category : Option String := none
  deriving Repr, DecidableEq

/-- The `summary` dict built by
`StatementParserNode._simulate_statement_parsing`. -/
structure StatementSummary where
  total_income : ℚ
  total_expenses : ℚ
  net_flow : ℚ
  top_categories : List (String × ℚ)
  deriving Repr, DecidableEq

/-- The `financial_data` dict; the workflow reads/writes the keys
`"transactions"` and `"summary"` only. -/
structure FinancialData where
  transactions : Option (List Txn) := none
  summary : Option StatementSummary := none
  deriving Repr, DecidableEq

/-- Values written into the heterogeneous `context` dict by the intent
classifier. -/
inductive CtxVal where
  | str (v : String)
  | rat (v : ℚ)
  | bool (v : Bool)
  deriving Repr, DecidableEq

/-- A budget alert; the source formats it as the string
`f"High spending in {category}: {percentage:.1f}% of budget"` — the
decimal string formatting is elided, the data is kept. -/
inductive BudgetAlert where
  | highSpending (category : String) (pct : ℚ)
  deriving Repr, DecidableEq

/-- One budget insight (`BudgetAnalyzerNode._generate_budget_insights`);
the top-category entry keeps its data in place of the `:.1f` formatting. -/
inductive Insight where
  | topCategory (category : String) (pct : ℚ)
  | text (s : String)
  deriving Repr, DecidableEq

/-- The dict returned by `BudgetAnalyzerNode._analyze_budget` (and, without
`monthly_trends`, by `_create_sample_budget_analysis`). -/
structure BudgetAnalysis where
  category_totals : List (String × ℚ)
  category_percentages : List (String × ℚ)
  monthly_trends : Option (List (String × List (String × ℚ))) := none
  total_expenses : ℚ
  alerts : List BudgetAlert
  recommendations : List String
  deriving Repr, DecidableEq

/-- Which goal dicts `GoalPlannerNode._analyze_goals` creates; the numeric
contents of `_create_*_goal` (compound-interest arithmetic, rounding) are
out of scope per spec §1 and elided. -/
inductive GoalItem where
  | retirement
  | emergencyFund
  | house
  | vacation
  deriving Repr, DecidableEq

/-- Payloads written into `analysis_results` by the node classes.  Keys and
control flow follow the source; payload bodies no claim inspects are
carried as tags. -/
inductive APayload where
  | statementAnalysis (total_transactions : Nat) (total_income : ℚ)
      (total_expenses : ℚ) (net_flow : ℚ) (top_categories : List (String × ℚ))
  | statementNote (note : String)
  | budgetAnalysis (a : BudgetAnalysis)
  | budgetInsights (l : List Insight)
  | goalsAnalysis (goals : List GoalItem)
  | goalFramework
  | goalRecommendations
  deriving Repr, DecidableEq

/-- The `FinanceAgentState` TypedDict (`core/state.py` lines 39-68).
`messages` and `visualizations` entries are opaque to every claim and kept
as strings. -/
structure AgentState where
  user_profile : Option UserProfile := none
  system_stage : SystemStage := .STARTED
  messages : List String := []
  user_query : String := ""
  intent : String := ""
  confidence_score : ℚ := 0
  context : List (String × CtxVal) := []
  financial_data : FinancialData := {}
  current_node : String := ""
  tools_used : List String := []
  analysis_results : List (String × APayload) := []
  response : String := ""
  suggestions : List String := []
  visualizations : List String := []
  should_continue : Bool := true
  error_message : Option String := none
  retry_count : Nat := 0
  deriving Repr, DecidableEq

/-! ### IntentClassifierNode (`nodes/intent_classifier_node.py`) -/

/-- `IntentClassifierNode._is_demo_user` (lines 16-21): the profile exists,
its email is truthy (non-empty) and ends with `"@example.com"`. -/
def isDemoUser (s : AgentState) : Bool :=
  match s.user_profile with
  | some profile =>
    match profile.email with
    | some email => email ≠ "" && "@example.com".data.isSuffixOf email.data
    | none => false
  | none => false

/-- The `intent_keywords` trigger-phrase table (lines 68-109). -/
def intentKeywords : List (FinancialIntent × List String) :=
  [(.BUDGETING, ["budget", "spending", "expenses", "spend", "money", "cost",
      "allocation", "track", "limit", "allowance"]),
   (.GOAL_PLANNING, ["goal", "save", "target", "plan", "future", "retirement",
      "emergency fund", "vacation", "house", "car"]),
   (.BASIC_INSIGHTS, ["analyze", "insight", "report", "summary", "overview",
      "health", "score", "trend", "pattern"]),
   (.TAX_ANALYSIS, ["tax", "deduction", "irs", "refund", "filing", "1099",
      "w2", "write-off", "itemize"]),
   (.MARKET_DATA, ["market", "stock", "price", "nasdaq", "dow", "s&p",
      "crypto", "bitcoin", "investment news"]),
   (.PORTFOLIO_TRACKING, ["portfolio", "investment", "return", "performance",
      "asset", "allocation", "diversification", "roi"]),
   (.TASK_DECOMPOSITION, ["plan", "strategy", "step", "roadmap", "process",
      "how to", "guide", "walkthrough"]),
   (.ML_FORECASTING, ["predict", "forecast", "future", "projection", "trend",
      "estimate", "model", "ai prediction"]),
   (.PORTFOLIO_OPTIMIZATION, ["optimize", "rebalance", "best", "improve", "maximize",
      "efficient", "allocate", "adjust"]),
   (.AUTOMATED_EXECUTION, ["execute", "buy", "sell", "trade", "transfer", "automate",
      "action", "implement"])]

/-- The per-intent score of `_classify_with_rules` (lines 203-208):
`score += len(keyword.split()) * 0.1` for each matched keyword. -/
def keywordScore (user_query : String) (keywords : List String) : ℚ :=
  keywords.foldl
    (fun score keyword =>
      if strContains user_query keyword then
        score + ((keyword.splitOn " ").length : ℚ) * (1 / 10)
      else score)
    0

/-- Score of one intent of the trigger table for a query. -/
def intentScore (user_query : String) (intent : FinancialIntent) : ℚ :=
  keywordScore user_query ((intentKeywords.lookup intent).getD [])

/-- The `intent_scores` dict of `_classify_with_rules` (lines 201-211):
only intents with a positive score are kept, in table order. -/
def ruleScores (user_query : String) : List (FinancialIntent × ℚ) :=
  intentKeywords.filterMap fun p =>
    if keywordScore user_query p.2 > 0 then some (p.1, keywordScore user_query p.2)
    else none

/-- `IntentClassifierNode._classify_with_rules` (lines 199-220).  The Python
`max(..., key=λ x: x[1])` picks the first arg-max entry of `intent_scores`;
since table keys are distinct, the dict lookup of the winner is that
entry's score. -/
def classifyWithRules (user_query : String) : FinancialIntent × ℚ :=
  match argmaxFirst (ruleScores user_query) with
  | none => (.GENERAL_QUERY, 3 / 10)
  | some best => (best.1, min best.2 1)

/-- The `"confidence"` field of the parsed LLM JSON:
absent (defaulting to `0.0`), malformed (`float(...)` raised, coerced to
`0.0`), or a parsed number. -/
inductive LlmConfVal where
  | missing
  | malformed
  | val (c : ℚ)
  deriving Repr, DecidableEq

/-- Outcome of the `self.llm.invoke` call plus JSON parsing inside
`_classify_with_llm` (lines 222-280), as seen at each of its `try`/
validation boundaries. -/
inductive LlmReply where
  | raised (msg : String)
  | invalidJson
  | nonDict
  | parsed (intentName : String) (conf : LlmConfVal)
  deriving Repr, DecidableEq

/-- Replies on which the classification path errors out (exception, JSON
decode failure, non-object result, or an intent name that is not an enum
member — the `KeyError` branch). -/
def LlmReply.isFailure : LlmReply → Bool
  | .raised _ => true
  | .invalidJson => true
  | .nonDict => true
  | .parsed intentName _ => (FinancialIntent.ofName intentName.toUpper).isNone

/-- `IntentClassifierNode._classify_with_llm` (lines 222-280): fail closed to
`(UNKNOWN, 0.0)` on any raise/parse failure; out-of-range confidence is
coerced to `0.0`; the intent name is upper-cased and looked up in the enum
(missing name defaults to `"UNKNOWN"` before the lookup, which the
`parsed "UNKNOWN" _` case covers). -/
def classifyWithLlm : LlmReply → FinancialIntent × ℚ
  | .raised _ => (.UNKNOWN, 0)
  | .invalidJson => (.UNKNOWN, 0)
  | .nonDict => (.UNKNOWN, 0)
  | .parsed intentName conf =>
    let confidence : ℚ :=
      match conf with
      | .missing => 0
      | .malformed => 0
      | .val c => if 0 ≤ c ∧ c ≤ 1 then c else 0
    match FinancialIntent.ofName intentName.toUpper with
    | some intent => (intent, confidence)
    | none => (.UNKNOWN, 0)

/-- The query as the classifier normalises it:
`str(state.get("user_query", "")).lower().strip()` (line 118). -/
def classifierQuery (s : AgentState) : String :=
  s.user_query.toLower.trim

/-- The adaptive confidence threshold (line 131):
`0.5 if is_demo_user else 0.7`. -/
def adaptiveThreshold (is_demo : Bool) : ℚ :=
  if is_demo then 1 / 2 else 7 / 10

/-- `IntentClassifierNode.__call__` (lines 111-197).  The LLM collaborator is
the oracle `llm : String → LlmReply`; `processing_time` stands for the
wall-clock duration the code measures with `datetime.now()`.  The result
triple is (intent, confidence, classification_method). -/
def classifierCall (llm : String → LlmReply) (processing_time : ℚ)
    (s : AgentState) : AgentState :=
  if classifierQuery s = "" then
    { s with intent := FinancialIntent.UNKNOWN.value
             confidence_score := 0
             error_message := some "Empty query provided" }
  else
    let user_query := classifierQuery s
    let is_demo := isDemoUser s
    let confidence_threshold := adaptiveThreshold is_demo
    let rb := classifyWithRules user_query
    let res : FinancialIntent × ℚ × String :=
      if rb.2 < confidence_threshold then
        let lm := classifyWithLlm (llm user_query)
        if lm.2 > rb.2 then (lm.1, lm.2, "llm") else (rb.1, rb.2, "rule_based")
      else (rb.1, rb.2, "rule_based")
    let ctx := dictInsert s.context "classification_method" (.str res.2.2)
    let ctx := dictInsert ctx "processing_time" (.rat processing_time)
    let ctx := dictInsert ctx "user_type" (.str (if is_demo then "demo" else "standard"))
    let ctx := dictInsert ctx "threshold_used" (.rat confidence_threshold)
    let ctx := dictInsert ctx "threshold_met" (.bool (res.2.1 ≥ confidence_threshold))
    { s with intent := res.1.value
             confidence_score := res.2.1
             tools_used := s.tools_used ++ ["intent_classifier"]
             current_node := "intent_classifier"
             context := ctx }

/-! ### StatementParserNode (`nodes/statement_parser_node.py`) -/

/-- Stable insert for a descending sort by value (the behaviour of Python's
stable `sorted(..., key=λ x: x[1], reverse=True)`). -/
def insertDesc (x : String × ℚ) : List (String × ℚ) → List (String × ℚ)
  | [] => [x]
  | y :: ys => if x.2 < y.2 then y :: insertDesc x ys else x :: y :: ys

/-- Stable descending sort by value. -/
def sortByValDesc : List (String × ℚ) → List (String × ℚ)
  | [] => []
  | x :: xs => insertDesc x (sortByValDesc xs)

/-- `m[k] = m.get(k, 0) + amt` on a numeric dict. -/
def dictAdd (m : List (String × ℚ)) (k : String) (amt : ℚ) : List (String × ℚ) :=
  dictInsert m k (dictGet m k 0 + amt)

/-- The `sample_transactions` literal of
`StatementParserNode._simulate_statement_parsing` (lines 62-70). -/
def sampleTransactions : List Txn :=
  [⟨some "2024-01-01", some "Salary Deposit", some 5000, some "Income"⟩,
   ⟨some "2024-01-02", some "Grocery Store", some (-150), some "Food"⟩,
   ⟨some "2024-01-03", some "Gas Station", some (-60), some "Transportation"⟩,
   ⟨some "2024-01-04", some "Utility Bill", some (-120), some "Utilities"⟩,
   ⟨some "2024-01-05", some "Restaurant", some (-85), some "Food"⟩,
   ⟨some "2024-01-06", some "Online Shopping", some (-200), some "Shopping"⟩,
   ⟨some "2024-01-07", some "Investment Contribution", some (-500), some "Investment"⟩]

/-- `_simulate_statement_parsing` (lines 59-94); every sample transaction has
all keys, so the `t["amount"]` reads are the `.getD 0` projections. -/
def simulateStatementParsing : List Txn × StatementSummary :=
  let ts := sampleTransactions
  let amounts := ts.map (fun t => t.amount.getD 0)
  let total_income := ((amounts.filter (fun a => a > 0)).foldl (· + ·) 0 : ℚ)
  let total_expenses := (((amounts.filter (fun a => a < 0)).map (|·|)).foldl (· + ·) 0 : ℚ)
  let net_flow := total_income - total_expenses
  let categories := ts.foldl
    (fun m t =>
      let amount := if t.amount.getD 0 < 0 then |t.amount.getD 0| else 0
      dictAdd m (t.category.getD "") amount)
    []
  let top_categories := (sortByValDesc categories).take 5
  (ts, { total_income, total_expenses, net_flow, top_categories })

/-- The statement-upload trigger keywords of `StatementParserNode.__call__`
(lines 26-28). -/
def parseKeywords : List String :=
  ["statement", "csv", "data", "upload", "file", "transaction", "bank"]

/-- `StatementParserNode.__call__` (lines 20-57).  The body is pure (sample
data only), so the node's `except` branch is unreachable here. -/
def statementParserCall (s : AgentState) : AgentState :=
  if parseKeywords.any (fun kw => strContains s.user_query.toLower kw) then
    let parsed := simulateStatementParsing
    let s := { s with financial_data :=
      { s.financial_data with transactions := some parsed.1, summary := some parsed.2 } }
    let s := { s with tools_used := s.tools_used ++ ["statement_parser"] }
    let ar := dictInsert s.analysis_results "statement_analysis"
      (.statementAnalysis parsed.1.length parsed.2.total_income
        parsed.2.total_expenses parsed.2.net_flow parsed.2.top_categories)
    let s := { s with analysis_results := ar }
    { s with current_node := "statement_parser" }
  else
    let ar := dictInsert s.analysis_results "statement_note"
      (.statementNote "No financial data provided for parsing")
    let s := { s with analysis_results := ar }
    { s with current_node := "statement_parser" }

/-! ### BudgetAnalyzerNode (`nodes/budget_analyzer_node.py`) -/

/-- `transaction["amount"]`: `KeyError` (whose `str` is `"'amount'"`) when
the key is absent. -/
def txnAmount (t : Txn) : Except String ℚ :=
  match t.amount with
  | some a => .ok a
  | none => .error "'amount'"

/-- `transaction["category"]`. -/
def txnCategory (t : Txn) : Except String String :=
  match t.category with
  | some c => .ok c
  | none => .error "'category'"

/-- `transaction["date"]`. -/
def txnDate (t : Txn) : Except String String :=
  match t.date with
  | some d => .ok d
  | none => .error "'date'"

/-- One iteration of the `_analyze_budget` transaction loop (lines 54-64):
accumulate `category_totals` and `monthly_trends` for expenses; field reads
happen in source order (amount, category, date) and raise `KeyError` when
absent. -/
def budgetFoldStep
    (acc : List (String × ℚ) × List (String × List (String × ℚ))) (t : Txn) :
    Except String (List (String × ℚ) × List (String × List (String × ℚ))) := do
  let amount ← txnAmount t
  if amount < 0 then
    let category ← txnCategory t
    let amt := |amount|
    let category_totals := dictAdd acc.1 category amt
    let date ← txnDate t
    let month := date.take 7
    let monthly_trends :=
      dictInsert acc.2 month (dictAdd (dictGet acc.2 month []) category amt)
    pure (category_totals, monthly_trends)
  else
    pure acc

/-- `BudgetAnalyzerNode._generate_recommendations` (lines 111-129). -/
def generateRecommendations (category_percentages : List (String × ℚ)) : List String :=
  let essential_spending := dictGet category_percentages "Food" 0
    + dictGet category_percentages "Utilities" 0
    + dictGet category_percentages "Transportation" 0
  (if essential_spending > 50 then
    ["Consider reducing essential expenses - aim for 50% of income"] else [])
  ++ (if dictGet category_percentages "Investment" 0 < 20 then
    ["Try to save/invest at least 20% of your income"] else [])
  ++ (if dictGet category_percentages "Food" 0 > 15 then
    ["Food spending is high - try meal planning and cooking at home"] else [])

/-- `BudgetAnalyzerNode._analyze_budget` (lines 48-86). -/
def analyzeBudget (transactions : List Txn) : Except String BudgetAnalysis := do
  let totals ← transactions.foldlM budgetFoldStep ([], [])
  let total_expenses := (totals.1.map (·.2)).foldl (· + ·) 0
  let category_percentages := totals.1.map (fun p => (p.1, p.2 / total_expenses * 100))
  let alerts := (category_percentages.filter (fun p => p.2 > 30)).map
    (fun p => BudgetAlert.highSpending p.1 p.2)
  pure { category_totals := totals.1
         category_percentages
         monthly_trends := some totals.2
         total_expenses
         alerts
         recommendations := generateRecommendations category_percentages }

/-- `BudgetAnalyzerNode._generate_budget_insights` (lines 88-109):
`max(category_percentages, key=category_percentages.get)` raises
`ValueError` on an empty dict (expense-free transaction lists). -/
def generateBudgetInsights (analysis : BudgetAnalysis) : Except String (List Insight) := do
  let cp := analysis.category_percentages
  let top ← match argmaxFirst cp with
    | some best => pure best
    | none => Except.error "max() arg is an empty sequence"
  pure ([Insight.topCategory top.1 top.2]
    ++ (if dictGet cp "Food" 0 > 15 then
      [.text "Consider meal planning to reduce food expenses"] else [])
    ++ (if dictGet cp "Shopping" 0 > 10 then
      [.text "Review discretionary spending for potential savings"] else [])
    ++ (if dictGet cp "Investment" 0 > 10 then
      [.text "Great job prioritizing investments!"] else []))

/-- `BudgetAnalyzerNode._create_sample_budget_analysis` (lines 131-155);
the literal has no `monthly_trends` key. -/
def sampleBudgetAnalysis : BudgetAnalysis :=
  { category_totals := [("Food", 235), ("Transportation", 60), ("Utilities", 120),
      ("Shopping", 200), ("Investment", 500)]
    category_percentages := [("Food", 21.1), ("Transportation", 5.4), ("Utilities", 10.8),
      ("Shopping", 17.9), ("Investment", 44.8)]
    monthly_trends := none
    total_expenses := 1115
    alerts := [.highSpending "Investment" 44.8]
    recommendations := ["Great job prioritizing investments!",
      "Consider reducing food expenses through meal planning"] }

/-- `BudgetAnalyzerNode.__call__` (lines 18-46): the node's own `try/except`
boundary; a raise anywhere in the body keeps the in-place mutations
performed before it and sets `error_message = str(e)`. -/
def budgetAnalyzerCall (s : AgentState) : AgentState :=
  let transactions := s.financial_data.transactions.getD []
  if transactions.isEmpty then
    let ar := dictInsert s.analysis_results "budget_analysis"
      (.budgetAnalysis sampleBudgetAnalysis)
    let s := { s with analysis_results := ar }
    let s := { s with tools_used := s.tools_used ++ ["budget_analyzer"] }
    { s with current_node := "budget_analyzer" }
  else
    match analyzeBudget transactions with
    | .error e => { s with error_message := some e }
    | .ok analysis =>
      let ar := dictInsert s.analysis_results "budget_analysis" (.budgetAnalysis analysis)
      let s := { s with analysis_results := ar }
      let s := { s with tools_used := s.tools_used ++ ["budget_analyzer"] }
      match generateBudgetInsights analysis with
      | .error e => { s with error_message := some e }
      | .ok insights =>
        let ar2 := dictInsert s.analysis_results "budget_insights" (.budgetInsights insights)
        let s := { s with analysis_results := ar2 }
        { s with current_node := "budget_analyzer" }

/-! ### GoalPlannerNode (`nodes/goal_planner_node.py`) -/

/-- The goal trigger keywords of `GoalPlannerNode.__call__` (lines 25-27). -/
def goalKeywords : List String :=
  ["goal", "save", "target", "plan", "retirement", "emergency", "vacation"]

/-- `GoalPlannerNode._analyze_goals` (lines 50-78): which goal dicts get
created, in source order; no specific goal mentioned falls back to
emergency fund plus retirement. -/
def analyzeGoals (user_query : String) : List GoalItem :=
  let goals :=
    (if strContains user_query "retirement" then [GoalItem.retirement] else [])
    ++ (if strContains user_query "emergency" then [GoalItem.emergencyFund] else [])
    ++ (if strContains user_query "house" || strContains user_query "home" then
      [GoalItem.house] else [])
    ++ (if strContains user_query "vacation" then [GoalItem.vacation] else [])
  if goals.isEmpty then [.emergencyFund, .retirement] else goals

/-- `GoalPlannerNode.__call__` (lines 20-48); the body is deterministic and
total, so its `except` branch is unreachable here. -/
def goalPlannerCall (s : AgentState) : AgentState :=
  let user_query := s.user_query.toLower
  if goalKeywords.any (fun kw => strContains user_query kw) then
    let ar := dictInsert s.analysis_results "goals_analysis"
      (.goalsAnalysis (analyzeGoals user_query))
    let s := { s with analysis_results := ar }
    let s := { s with tools_used := s.tools_used ++ ["goal_planner"] }
    let ar2 := dictInsert s.analysis_results "goal_recommendations" .goalRecommendations
    let s := { s with analysis_results := ar2 }
    { s with current_node := "goal_planner" }
  else
    let ar := dictInsert s.analysis_results "goals_analysis" .goalFramework
    let s := { s with analysis_results := ar }
    let s := { s with tools_used := s.tools_used ++ ["goal_planner"] }
    { s with current_node := "goal_planner" }

/-- The MVP-stage chain `statement_parser → budget_analyzer → goal_planner`
of `FinanceWorkflow.setup_workflow` (`core/workflow.py` lines 119-122). -/
def mvpChain (s : AgentState) : AgentState :=
  goalPlannerCall (budgetAnalyzerCall (statementParserCall s))

/-! ### ActionExecutorNode (`nodes/action_executor_node.py`) -/

/-- The `enabled_actions` map of `ActionExecutorNode.__init__` (lines 15-23):
only notifications and report generation are enabled; everything touching
banking or broker APIs is disabled. -/
def enabledActions : List (String × Bool) :=
  [("portfolio_rebalancing", false), ("bill_payments", false),
   ("savings_transfers", false), ("investment_purchases", false),
   ("notifications", true), ("report_generation", true)]

/-- The `data` sub-dict of an action, with the keys the executors read;
absent keys are `none` and fall back to the source's `.get` defaults. -/
structure ActionData where
  alert_message : Option String := none
  transfer_amount : Option ℚ := none
  goal_name : Option String := none
  monthly_amount : Option ℚ := none
  target_allocation : List (String × ℚ) := []
  rebalancing_threshold : Option ℚ := none
  report_type : Option String := none
  format : Option String := none
  deriving Repr, DecidableEq

/-- An action dict as built by
`ActionExecutorNode._identify_available_actions` (`type`, `action`,
`description`, `priority`, `data`). -/
structure ActionSpec where
  type_ : String
  action : String
  description : String
  priority : String
  data : ActionData := {}
  deriving Repr, DecidableEq

/-- One simulated rebalancing trade
(`_simulate_portfolio_rebalancing`, lines 272-284). -/
structure RebalTrade where
  asset : String
  action : String
  amount_pct : ℚ
  estimated_value : ℚ
  deriving Repr, DecidableEq

/-- The `details` dict of an execution result, per executor branch; constant
string/timestamp filler of the source literals is elided. -/
inductive ExecDetails where
  | notification (message : String) (priority : String)
  | report (report_type : String) (file_format : String)
  | savingsTransfer (transfer_amount : ℚ) (purpose : String)
  | rebalancing (target_allocation : List (String × ℚ)) (trades_needed : List RebalTrade)
  | notSupported (message : String)
  deriving Repr, DecidableEq

/-- An action execution result (`_execute_action`, lines 166-203):
`action`, `type`, `status` and the branch-specific `details`. -/
structure ExecResult where
  action : String
  type_ : String
  status : String
  details : ExecDetails
  deriving Repr, DecidableEq

/-- The hard-coded `current_allocation` of
`_simulate_portfolio_rebalancing` (lines 264-270). -/
def currentAllocation : List (String × ℚ) :=
  [("US_Stocks", 45), ("International_Stocks", 15), ("Bonds", 30),
   ("REITs", 7), ("Commodities", 3)]

/-- The trades loop of `_simulate_portfolio_rebalancing` (lines 272-284). -/
def rebalTrades (data : ActionData) : List RebalTrade :=
  data.target_allocation.filterMap fun p =>
    let current_pct := dictGet currentAllocation p.1 0
    let difference := p.2 - current_pct
    if |difference| > data.rebalancing_threshold.getD 5 then
      some { asset := p.1
             action := if difference > 0 then "buy" else "sell"
             amount_pct := |difference|
             estimated_value := |difference| * 100 }
    else none

/-- `ActionExecutorNode._execute_action` (lines 166-203): the status starts
as `"completed"` and is downgraded per action class; the sub-executors are
total dict builders, so the `except` branch that would set `"failed"` is
unreachable. -/
def executeAction (a : ActionSpec) : ExecResult :=
  if a.type_ = "notifications" then
    { action := a.action, type_ := a.type_, status := "completed"
      details := .notification a.description a.priority }
  else if a.type_ = "report_generation" then
    { action := a.action, type_ := a.type_, status := "completed"
      details := .report (a.data.report_type.getD "standard") (a.data.format.getD "pdf") }
  else if a.type_ = "savings_transfers" then
    { action := a.action, type_ := a.type_, status := "simulated"
      details := .savingsTransfer (a.data.transfer_amount.getD 0)
        (a.data.goal_name.getD "General Savings") }
  else if a.type_ = "portfolio_rebalancing" then
    { action := a.action, type_ := a.type_, status := "simulated"
      details := .rebalancing a.data.target_allocation (rebalTrades a.data) }
  else
    { action := a.action, type_ := a.type_, status := "not_supported"
      details := .notSupported ("Action type " ++ a.type_ ++ " not yet supported") }

/-- The executed/suggested split of `ActionExecutorNode.__call__`
(lines 46-53): enabled action classes are executed via `_execute_action`,
the rest become suggestions. -/
def executorSplit (actions : List ActionSpec) : List ExecResult × List ActionSpec :=
  ((actions.filter fun a => dictGet enabledActions a.type_ false).map executeAction,
   actions.filter fun a => !dictGet enabledActions a.type_ false)

/-! ## Helper lemmas -/

theorem lookup_dictInsert_same {α : Type} (m : List (String × α)) (k : String) (v : α) :
    (dictInsert m k v).lookup k = some v := by
  induction m with
  | nil => simp [dictInsert, List.lookup]
  | cons p rest ih =>
    obtain ⟨pk, pv⟩ := p
    by_cases h : pk = k
    · subst h
      simp [dictInsert, List.lookup]
    · have hf : (k == pk) = false := beq_eq_false_iff_ne.mpr fun hh => h hh.symm
      simp [dictInsert, h, List.lookup, hf, ih]

theorem lookup_dictInsert_of_ne {α : Type} (m : List (String × α)) (k k' : String) (v : α)
    (h : k ≠ k') : (dictInsert m k' v).lookup k = m.lookup k := by
  have hf : (k == k') = false := beq_eq_false_iff_ne.mpr h
  induction m with
  | nil => simp [dictInsert, List.lookup, hf]
  | cons p rest ih =>
    obtain ⟨pk, pv⟩ := p
    by_cases hp : pk = k'
    · subst hp
      simp [dictInsert, List.lookup, hf]
    · by_cases hk : k = pk
      · subst hk
        simp [dictInsert, hp, List.lookup]
      · have hf2 : (k == pk) = false := beq_eq_false_iff_ne.mpr hk
        simp [dictInsert, hp, List.lookup, hf2, ih]

theorem foldl_pick_mem {α : Type} (xs : List (α × ℚ)) (x : α × ℚ) :
    xs.foldl (fun best y => if y.2 > best.2 then y else best) x = x ∨
    xs.foldl (fun best y => if y.2 > best.2 then y else best) x ∈ xs := by
  induction xs generalizing x with
  | nil => exact .inl rfl
  | cons y ys ih =>
    simp only [List.foldl_cons]
    rcases ih (if y.2 > x.2 then y else x) with h | h
    · rw [h]
      by_cases hxy : y.2 > x.2
      · rw [if_pos hxy]
        exact .inr (.head _)
      · rw [if_neg hxy]
        exact .inl rfl
    · exact .inr (.tail _ h)

theorem foldl_pick_ge {α : Type} (xs : List (α × ℚ)) (x : α × ℚ) :
    x.2 ≤ (xs.foldl (fun best y => if y.2 > best.2 then y else best) x).2 ∧
    ∀ y ∈ xs, y.2 ≤ (xs.foldl (fun best y => if y.2 > best.2 then y else best) x).2 := by
  induction xs generalizing x with
  | nil => exact ⟨le_refl _, by simp⟩
  | cons y ys ih =>
    have hstep_x : x.2 ≤ (if y.2 > x.2 then y else x).2 := by
      by_cases hxy : y.2 > x.2
      · rw [if_pos hxy]; exact le_of_lt hxy
      · rw [if_neg hxy]
    have hstep_y : y.2 ≤ (if y.2 > x.2 then y else x).2 := by
      by_cases hxy : y.2 > x.2
      · rw [if_pos hxy]
      · rw [if_neg hxy]; exact le_of_not_lt hxy
    obtain ⟨h1, h2⟩ := ih (if y.2 > x.2 then y else x)
    simp only [List.foldl_cons]
    refine ⟨le_trans hstep_x h1, ?_⟩
    intro z hz
    rcases List.mem_cons.mp hz with rfl | hz
    · exact le_trans hstep_y h1
    · exact h2 z hz

theorem argmaxFirst_spec {α : Type} (l : List (α × ℚ)) (m : α × ℚ)
    (h : argmaxFirst l = some m) : m ∈ l ∧ ∀ y ∈ l, y.2 ≤ m.2 := by
  match l with
  | [] => simp [argmaxFirst] at h
  | x :: xs =>
    simp only [argmaxFirst, Option.some.injEq] at h
    subst h
    constructor
    · rcases foldl_pick_mem xs x with h | h
      · rw [h]; exact .head _
      · exact .tail _ h
    · intro y hy
      rcases List.mem_cons.mp hy with rfl | hy
      · exact (foldl_pick_ge xs y).1
      · exact (foldl_pick_ge xs x).2 y hy

/-! ## Claim C4 — stage router decision table -/

/-- **C4.**  For every input state: `consent_given = false` routes to
`started` regardless of everything else; otherwise `profile_complete =
false` routes to the basic stage (the code's `"mvp"` enum value — the spec
names this stage "basic"); otherwise `context.experience_level` decides
(`"advanced"` ↦ advanced, `"intermediate"` ↦ intermediate, anything else ↦
the basic/`"mvp"` stage). -/
theorem C4_stage_router_decision (s : FinanceState) :
    (s.consent_given = false →
      (systemStageRouter s).current_stage = FinanceState.stageStarted) ∧
    (s.consent_given = true → s.profile_complete = false →
      (systemStageRouter s).current_stage = FinanceState.stageMvp) ∧
    (s.consent_given = true → s.profile_complete = true →
      dictGet s.context "experience_level" "beginner" = "advanced" →
      (systemStageRouter s).current_stage = FinanceState.stageAdvanced) ∧
    (s.consent_given = true → s.profile_complete = true →
      dictGet s.context "experience_level" "beginner" = "intermediate" →
      (systemStageRouter s).current_stage = FinanceState.stageIntermediate) ∧
    (s.consent_given = true → s.profile_complete = true →
      dictGet s.context "experience_level" "beginner" ≠ "advanced" →
      dictGet s.context "experience_level" "beginner" ≠ "intermediate" →
      (systemStageRouter s).current_stage = FinanceState.stageMvp) := by
  unfold systemStageRouter pushTrace
  refine ⟨?_, ?_, ?_, ?_, ?_⟩ <;> intro h1 <;> simp only [h1] <;> intros <;>
    simp_all

/-- A state with consent, a complete profile and an advanced experience
level, instantiating the router claims. -/
def advancedProbe : FinanceState :=
  { consent_given := true
    profile_complete := true
    context := [("experience_level", "advanced")] }

/-- Closed instantiation of `C4_stage_router_decision`. -/
theorem C4_stage_router_decision_witness :
    (systemStageRouter advancedProbe).current_stage = FinanceState.stageAdvanced :=
  (C4_stage_router_decision advancedProbe).2.2.1 rfl rfl (by decide)

/-! ## Claim C10 — stage router purity and frame (corrected) -/

/-- A default-initialised state probing the stage router's frame. -/
def routerProbe : FinanceState := {}

/-- **C10, counterexample.**  The claim says a stage-router call "modifies
no state fields other than the stage field"; on the code it also appends to
`tools_used` (and `explanations`), refuting the claim at the default
state. -/
theorem C10_router_touches_only_stage_counterexample :
    ¬ ((systemStageRouter routerProbe).tools_used = routerProbe.tools_used) := by
  decide

/-- **C10, amended.**  The stage router is deterministic — the resulting
stage label depends only on `consent_given`, `profile_complete` and
`context` — and a call modifies no state fields other than `current_stage`,
`tools_used` (appending exactly its own identifier) and `explanations`
(appending exactly one trace entry). -/
theorem C10_stage_router_pure_frame (s t : FinanceState)
    (hc : s.consent_given = t.consent_given)
    (hp : s.profile_complete = t.profile_complete)
    (hx : s.context = t.context) :
    (systemStageRouter s).current_stage = (systemStageRouter t).current_stage ∧
    (systemStageRouter s).user_id = s.user_id ∧
    (systemStageRouter s).user_query = s.user_query ∧
    (systemStageRouter s).system_stage = s.system_stage ∧
    (systemStageRouter s).intent = s.intent ∧
    (systemStageRouter s).context = s.context ∧
    (systemStageRouter s).response = s.response ∧
    (systemStageRouter s).analysis_results = s.analysis_results ∧
    (systemStageRouter s).next_action = s.next_action ∧
    (systemStageRouter s).messages = s.messages ∧
    (systemStageRouter s).consent_given = s.consent_given ∧
    (systemStageRouter s).profile_complete = s.profile_complete ∧
    (systemStageRouter s).execute_action = s.execute_action ∧
    (systemStageRouter s).tools_used = s.tools_used ++ ["system_stage_router"] ∧
    (systemStageRouter s).explanations = s.explanations ++
      [⟨"system_stage_router", "Determine workflow stage based on consent and profile"⟩] := by
  constructor
  · simp only [systemStageRouter, pushTrace, hc, hp, hx]
    split_ifs <;> rfl
  · simp only [systemStageRouter, pushTrace]
    split_ifs <;> simp

/-- A second probe state differing from `routerProbe` only in fields the
router does not read. -/
def routerProbe2 : FinanceState := { user_id := "u2", response := "r" }

/-- Closed instantiation of `C10_stage_router_pure_frame`. -/
theorem C10_stage_router_pure_frame_witness :
    (systemStageRouter routerProbe).current_stage
        = (systemStageRouter routerProbe2).current_stage ∧
    (systemStageRouter routerProbe).user_id = routerProbe.user_id :=
  ⟨(C10_stage_router_pure_frame routerProbe routerProbe2 rfl rfl rfl).1,
   (C10_stage_router_pure_frame routerProbe routerProbe2 rfl rfl rfl).2.1⟩

/-! ## Claim C1 — execution decision gate -/

theorem actionExecutor_stage (s : FinanceState) :
    (actionExecutor s).current_stage = s.current_stage := by
  by_cases hc : s.current_stage = FinanceState.stageAdvanced <;>
    simp [actionExecutor, pushTrace, hc]

theorem actionExecutor_consent (s : FinanceState) :
    (actionExecutor s).consent_given = s.consent_given := by
  by_cases hc : s.current_stage = FinanceState.stageAdvanced <;>
    simp [actionExecutor, pushTrace, hc]

theorem actionExecutor_execute (s : FinanceState) :
    (actionExecutor s).execute_action
      = decide (s.current_stage = FinanceState.stageAdvanced) := by
  by_cases hc : s.current_stage = FinanceState.stageAdvanced <;>
    simp [actionExecutor, pushTrace, hc]

theorem advancedToGate_consent (chat : String → String) (s : FinanceState) :
    (advancedToGate chat s).consent_given = s.consent_given := by
  show (actionExecutor (mlModels (reasoningEngine chat (taskDecomposer chat s)))).consent_given
      = s.consent_given
  rw [actionExecutor_consent]
  rfl

theorem advancedToGate_stage (chat : String → String) (s : FinanceState) :
    (advancedToGate chat s).current_stage = s.current_stage := by
  show (actionExecutor (mlModels (reasoningEngine chat (taskDecomposer chat s)))).current_stage
      = s.current_stage
  rw [actionExecutor_stage]
  rfl

theorem advancedToGate_execute (chat : String → String) (s : FinanceState) :
    (advancedToGate chat s).execute_action
      = decide (s.current_stage = FinanceState.stageAdvanced) := by
  show (actionExecutor (mlModels (reasoningEngine chat (taskDecomposer chat s)))).execute_action
      = decide (s.current_stage = FinanceState.stageAdvanced)
  rw [actionExecutor_execute]
  rfl

theorem router_advanced_consent (s : FinanceState)
    (h : (systemStageRouter s).current_stage = FinanceState.stageAdvanced) :
    s.consent_given = true := by
  by_contra hc
  simp only [systemStageRouter, pushTrace, FinanceState.stageAdvanced,
    FinanceState.stageStarted, FinanceState.stageMvp, FinanceState.stageIntermediate] at h
  rw [Bool.not_eq_true] at hc
  simp [hc] at h

theorem router_preserves_consent (s : FinanceState) :
    (systemStageRouter s).consent_given = s.consent_given := by
  simp only [systemStageRouter, pushTrace]
  split_ifs <;> rfl

/-- **C1.**  On every run whose stage routing reaches the advanced chain,
the state `advancedToGate chat (systemStageRouter s0)` presented to the
execution decision gate satisfies: the gate answers `"execute"` exactly
when `execute_action` is true and `"suggestions_only"` exactly when it is
false (so the two outcomes are mutually exclusive), and upstream of the
gate `execute_action` has been set to true exactly when the run's stage is
advanced and `consent_given` is true. -/
theorem C1_execution_decision_gate (chat : String → String) (s0 : FinanceState)
    (h : (systemStageRouter s0).current_stage = FinanceState.stageAdvanced) :
    (checkExecutionDecision (advancedToGate chat (systemStageRouter s0)) = "execute"
      ↔ (advancedToGate chat (systemStageRouter s0)).execute_action = true) ∧
    (checkExecutionDecision (advancedToGate chat (systemStageRouter s0)) = "suggestions_only"
      ↔ (advancedToGate chat (systemStageRouter s0)).execute_action = false) ∧
    ((advancedToGate chat (systemStageRouter s0)).execute_action = true
      ↔ ((advancedToGate chat (systemStageRouter s0)).current_stage
            = FinanceState.stageAdvanced
          ∧ (advancedToGate chat (systemStageRouter s0)).consent_given = true)) := by
  have hstage : (advancedToGate chat (systemStageRouter s0)).current_stage
      = FinanceState.stageAdvanced := by
    rw [advancedToGate_stage, h]
  have hconsent : (advancedToGate chat (systemStageRouter s0)).consent_given = true := by
    rw [advancedToGate_consent, router_preserves_consent]
    exact router_advanced_consent s0 h
  have hexec : (advancedToGate chat (systemStageRouter s0)).execute_action = true := by
    rw [advancedToGate_execute, h]
    simp
  refine ⟨?_, ?_, ?_⟩
  · simp [checkExecutionDecision, hexec]
  · simp [checkExecutionDecision, hexec]
  · simp [hexec, hstage, hconsent]

/-- Closed instantiation of `C1_execution_decision_gate` on the advanced
probe state: the gate answers `"execute"` there. -/
theorem C1_execution_decision_gate_witness :
    checkExecutionDecision (advancedToGate (fun _ => "") (systemStageRouter advancedProbe))
      = "execute" := by
  have h := C1_execution_decision_gate (fun _ => "") advancedProbe (by decide)
  refine h.1.mpr ?_
  rw [advancedToGate_execute]
  decide

/-! ## Claim C9 — stream fallback event sequence -/

/-- **C9.**  In fallback mode: a run whose execution completes yields
exactly two events, one `start` followed by one `end` carrying the final
state; a run whose execution raises yields a sequence ending in exactly one
terminal `error` event carrying the message.  `streamTraceFallback` is a
total function of the run outcome, so no exception crosses the stream
boundary. -/
theorem C9_stream_fallback_events (run : Except String FinanceState) :
    (∀ final, run = .ok final →
      streamTraceFallback run
          = [⟨"start", .message "Workflow started"⟩, ⟨"end", .finalState final⟩] ∧
        (streamTraceFallback run).length = 2) ∧
    (∀ e, run = .error e →
      streamTraceFallback run
          = [⟨"start", .message "Workflow started"⟩, ⟨"error", .message e⟩] ∧
        (streamTraceFallback run).getLast? = some ⟨"error", .message e⟩ ∧
        ((streamTraceFallback run).filter (fun ev => ev.event = "error")).length = 1) := by
  constructor
  · rintro final rfl
    exact ⟨rfl, rfl⟩
  · rintro e rfl
    refine ⟨rfl, rfl, ?_⟩
    simp [streamTraceFallback]

/-- Closed instantiation of `C9_stream_fallback_events` on both outcomes. -/
theorem C9_stream_fallback_events_witness :
    streamTraceFallback (.ok routerProbe)
        = [⟨"start", .message "Workflow started"⟩, ⟨"end", .finalState routerProbe⟩] ∧
    streamTraceFallback (.error "boom")
        = [⟨"start", .message "Workflow started"⟩, ⟨"error", .message "boom"⟩] :=
  ⟨((C9_stream_fallback_events (.ok routerProbe)).1 routerProbe rfl).1,
   ((C9_stream_fallback_events (.error "boom")).2 "boom" rfl).1⟩

/-! ## Claim C3 — accumulator fields grow by appending -/

/-- The node handler contract on the accumulator fields: the handler appends
exactly its own identifier to `tools_used`, only appends to `explanations`,
and leaves `messages` unchanged (no LangGraph node writes `messages`). -/
def appendsOwnTrace (name : String) (f : FinanceState → FinanceState) : Prop :=
  ∀ s : FinanceState,
    (f s).tools_used = s.tools_used ++ [name] ∧
    (∃ es, (f s).explanations = s.explanations ++ es) ∧
    (f s).messages = s.messages

/-- The seventeen nodes registered by `_create_workflow` via `add_node`
(`core/langgraph_workflow.py` lines 79-95), in registration order, each
paired with its registered name. -/
def langgraphNodes (chat : String → String) :
    List (String × (FinanceState → FinanceState)) :=
  [("system_stage_router", systemStageRouter),
   ("onboarding_node", onboardingNode chat),
   ("store_consent_profile", storeConsentProfile),
   ("intent_classifier", intentClassifierLG chat),
   ("statement_parser", statementParserLG),
   ("budget_analyzer", budgetAnalyzerLG chat),
   ("goal_planner", goalPlannerLG),
   ("task_decomposer", taskDecomposer chat),
   ("reasoning_engine", reasoningEngine chat),
   ("rag_knowledge_retriever", ragKnowledgeRetriever),
   ("ml_models", mlModels),
   ("finance_tools", financeTools),
   ("action_executor", actionExecutor),
   ("dashboard_generator", dashboardGenerator),
   ("notification_sender", notificationSender),
   ("feedback_collector", feedbackCollector chat),
   ("continuous_learning", continuousLearning)]

/-- Sequential execution of a linear chain of nodes. -/
def runChain (nodes : List (String × (FinanceState → FinanceState)))
    (s : FinanceState) : FinanceState :=
  nodes.foldl (fun st n => n.2 st) s

theorem sysRouter_trace : appendsOwnTrace "system_stage_router" systemStageRouter := by
  intro s
  refine ⟨?_,
    ⟨[⟨"system_stage_router", "Determine workflow stage based on consent and profile"⟩], ?_⟩,
    ?_⟩ <;>
  · simp only [systemStageRouter, pushTrace]
    split_ifs <;> rfl

theorem actionExec_trace : appendsOwnTrace "action_executor" actionExecutor := by
  intro s
  refine ⟨?_,
    ⟨[⟨"action_executor", "Decide whether to execute actions or provide suggestions"⟩], ?_⟩,
    ?_⟩ <;>
  · simp only [actionExecutor, pushTrace]
    split_ifs <;> rfl

theorem feedback_trace (chat : String → String) :
    appendsOwnTrace "feedback_collector" (feedbackCollector chat) := by
  intro s
  refine ⟨?_,
    ⟨[⟨"feedback_collector", "Summarize findings and propose next action"⟩], ?_⟩,
    ?_⟩ <;>
  · simp only [feedbackCollector, pushTrace]
    split_ifs <;> rfl

theorem storeConsent_trace : appendsOwnTrace "store_consent_profile" storeConsentProfile := by
  intro s
  exact ⟨rfl, ⟨[], by simp [storeConsentProfile]⟩, rfl⟩

theorem langgraphNodes_append (chat : String → String) :
    ∀ n ∈ langgraphNodes chat, appendsOwnTrace n.1 n.2 := by
  intro n hn
  simp only [langgraphNodes, List.mem_cons, List.not_mem_nil, or_false] at hn
  rcases hn with rfl|rfl|rfl|rfl|rfl|rfl|rfl|rfl|rfl|rfl|rfl|rfl|rfl|rfl|rfl|rfl|rfl
  · exact sysRouter_trace
  · exact fun s => ⟨rfl, ⟨_, rfl⟩, rfl⟩
  · exact storeConsent_trace
  · exact fun s => ⟨rfl, ⟨_, rfl⟩, rfl⟩
  · exact fun s => ⟨rfl, ⟨_, rfl⟩, rfl⟩
  · exact fun s => ⟨rfl, ⟨_, rfl⟩, rfl⟩
  · exact fun s => ⟨rfl, ⟨_, rfl⟩, rfl⟩
  · exact fun s => ⟨rfl, ⟨_, rfl⟩, rfl⟩
  · exact fun s => ⟨rfl, ⟨_, rfl⟩, rfl⟩
  · exact fun s => ⟨rfl, ⟨_, rfl⟩, rfl⟩
  · exact fun s => ⟨rfl, ⟨_, rfl⟩, rfl⟩
  · exact fun s => ⟨rfl, ⟨_, rfl⟩, rfl⟩
  · exact actionExec_trace
  · exact fun s => ⟨rfl, ⟨_, rfl⟩, rfl⟩
  · exact fun s => ⟨rfl, ⟨_, rfl⟩, rfl⟩
  · exact feedback_trace chat
  · exact fun s => ⟨rfl, ⟨_, rfl⟩, rfl⟩

/-- **C3.**  Any three-node linear chain drawn from the workflow's nodes,
run from a state with empty `tools_used`, ends with `tools_used` of length
exactly 3 holding the three node identifiers in execution order; and every
node only grows the accumulator fields — `tools_used` gains exactly the
node's identifier, `explanations` grows by appending, `messages` is
untouched — never removing or reordering existing entries. -/
theorem C3_accumulator_append (chat : String → String)
    (a b c : String × (FinanceState → FinanceState))
    (ha : a ∈ langgraphNodes chat) (hb : b ∈ langgraphNodes chat)
    (hc : c ∈ langgraphNodes chat)
    (s0 : FinanceState) (h0 : s0.tools_used = []) :
    (runChain [a, b, c] s0).tools_used = [a.1, b.1, c.1] ∧
    (∀ n ∈ langgraphNodes chat, ∀ s : FinanceState,
      (n.2 s).tools_used = s.tools_used ++ [n.1] ∧
      (∃ es, (n.2 s).explanations = s.explanations ++ es) ∧
      (n.2 s).messages = s.messages) := by
  have hall := langgraphNodes_append chat
  constructor
  · have h1 := (hall a ha s0).1
    have h2 := (hall b hb (a.2 s0)).1
    have h3 := (hall c hc (b.2 (a.2 s0))).1
    simp [runChain, h3, h2, h1, h0]
  · exact fun n hn s => hall n hn s

/-- Closed instantiation of `C3_accumulator_append` on the chain
`system_stage_router → statement_parser → ml_models`. -/
theorem C3_accumulator_append_witness :
    (runChain [("system_stage_router", systemStageRouter),
               ("statement_parser", statementParserLG),
               ("ml_models", mlModels)] routerProbe).tools_used
      = ["system_stage_router", "statement_parser", "ml_models"] :=
  (C3_accumulator_append (fun _ => "") _ _ _
    (.head _)
    (.tail _ (.tail _ (.tail _ (.tail _ (.head _)))))
    (.tail _ (.tail _ (.tail _ (.tail _ (.tail _ (.tail _ (.tail _ (.tail _ (.tail _
      (.tail _ (.head _)))))))))))
    routerProbe rfl).1

/-! ## Claim C8 — action result status classes -/

/-- **C8.**  Every result of `_execute_action` carries a status among
`completed`, `simulated`, `failed`, `not_supported`; a `completed` status
occurs only for the notification and report-generation action classes; and
the money/portfolio classes (savings transfers, portfolio rebalancing) are
always tagged `simulated`. -/
theorem C8_action_status_classes (a : ActionSpec) :
    ((executeAction a).status = "completed" ∨ (executeAction a).status = "simulated" ∨
      (executeAction a).status = "failed" ∨ (executeAction a).status = "not_supported") ∧
    ((executeAction a).status = "completed" →
      a.type_ = "notifications" ∨ a.type_ = "report_generation") ∧
    (a.type_ = "savings_transfers" ∨ a.type_ = "portfolio_rebalancing" →
      (executeAction a).status = "simulated") := by
  unfold executeAction
  split_ifs with h1 h2 h3 h4 <;> simp_all

/-- The savings-transfer suggestion built by
`_identify_available_actions` (lines 92-98), with a concrete surplus. -/
def sampleTransferAction : ActionSpec :=
  { type_ := "savings_transfers"
    action := "optimize_savings"
    description := "Automatically transfer surplus funds to savings"
    priority := "medium"
    data := { transfer_amount := some (111.5 : ℚ) } }

/-- Closed instantiation of `C8_action_status_classes`: the savings
transfer is only simulated. -/
theorem C8_action_status_classes_witness :
    (executeAction sampleTransferAction).status = "simulated" :=
  (C8_action_status_classes sampleTransferAction).2.2 (Or.inl rfl)

/-! ## Claim C6 — rule-phase classifier -/

theorem keywordScore_foldl_ge (q : String) (kws : List String) (acc : ℚ) :
    acc ≤ kws.foldl
      (fun score keyword =>
        if strContains q keyword then
          score + ((keyword.splitOn " ").length : ℚ) * (1 / 10)
        else score)
      acc := by
  induction kws generalizing acc with
  | nil => exact le_refl _
  | cons k ks ih =>
    simp only [List.foldl_cons]
    refine le_trans ?_ (ih _)
    by_cases h : strContains q k
    · rw [if_pos h]
      have hw : (0 : ℚ) ≤ ((k.splitOn " ").length : ℚ) * (1 / 10) := by positivity
      linarith
    · rw [if_neg h]

theorem keywordScore_nonneg (q : String) (kws : List String) :
    0 ≤ keywordScore q kws :=
  keywordScore_foldl_ge q kws 0

theorem keywordScore_zero (q : String) (kws : List String)
    (h : ∀ kw ∈ kws, strContains q kw = false) : keywordScore q kws = 0 := by
  unfold keywordScore
  induction kws with
  | nil => rfl
  | cons k ks ih =>
    simp only [List.foldl_cons]
    rw [if_neg (by rw [h k (.head _)]; exact fun hh => Bool.noConfusion hh)]
    exact ih fun kw hkw => h kw (.tail _ hkw)

theorem keywordScore_pos_aux (q : String) (kws : List String) (kw : String)
    (hc : strContains q kw = true) (hwc : 0 < ((kw.splitOn " ").length : ℚ)) :
    ∀ acc : ℚ, 0 ≤ acc → kw ∈ kws →
      0 < kws.foldl
        (fun score keyword =>
          if strContains q keyword then
            score + ((keyword.splitOn " ").length : ℚ) * (1 / 10)
          else score)
        acc := by
  induction kws with
  | nil => intro acc _ hm; exact absurd hm (List.not_mem_nil kw)
  | cons k ks ih =>
    intro acc hacc hm
    simp only [List.foldl_cons]
    rcases List.mem_cons.mp hm with rfl | hm
    · rw [if_pos hc]
      have hstep : 0 < acc + ((kw.splitOn " ").length : ℚ) * (1 / 10) := by
        have : (0 : ℚ) < ((kw.splitOn " ").length : ℚ) * (1 / 10) := by
          have h10 : (0 : ℚ) < 1 / 10 := by norm_num
          exact mul_pos hwc h10
        linarith
      exact lt_of_lt_of_le hstep (keywordScore_foldl_ge q ks _)
    · refine ih _ ?_ hm
      by_cases h : strContains q k
      · rw [if_pos h]
        have hw : (0 : ℚ) ≤ ((k.splitOn " ").length : ℚ) * (1 / 10) := by positivity
        linarith
      · rw [if_neg h]
        exact hacc

theorem keywordScore_pos (q : String) (kws : List String) (kw : String)
    (hmem : kw ∈ kws) (hc : strContains q kw = true)
    (hwc : 0 < ((kw.splitOn " ").length : ℚ)) : 0 < keywordScore q kws :=
  keywordScore_pos_aux q kws kw hc hwc 0 (le_refl 0) hmem

/-- Every trigger phrase of the table has at least one word
(`len(keyword.split()) ≥ 1`). -/
theorem wc_pos : ∀ p ∈ intentKeywords, ∀ kw ∈ p.2, 0 < (kw.splitOn " ").length := by
  with_unfolding_all decide

theorem intentScore_table (q : String) :
    ∀ p ∈ intentKeywords, intentScore q p.1 = keywordScore q p.2 := by
  intro p hp
  fin_cases hp <;> rfl

theorem mem_ruleScores_pos {q : String} {x : FinancialIntent × ℚ}
    (hx : x ∈ ruleScores q) :
    0 < x.2 ∧ ∃ p ∈ intentKeywords, p.1 = x.1 ∧ keywordScore q p.2 = x.2 := by
  unfold ruleScores at hx
  rw [List.mem_filterMap] at hx
  obtain ⟨p, hp, he⟩ := hx
  split_ifs at he with h
  · obtain rfl := Option.some.inj he
    exact ⟨h, p, hp, rfl, rfl⟩

theorem ruleScores_of_pos {q : String} {p : FinancialIntent × List String}
    (hp : p ∈ intentKeywords) (h : 0 < keywordScore q p.2) :
    (p.1, keywordScore q p.2) ∈ ruleScores q := by
  unfold ruleScores
  rw [List.mem_filterMap]
  exact ⟨p, hp, by rw [if_pos h]⟩

/-- **C6.**  The rule phase returns `general` (the `GENERAL_QUERY` intent)
with confidence exactly `0.3` when no trigger phrase matches; otherwise it
returns an arg-max-scoring intent with confidence `min(score, 1.0)`, the
score being the sum over matched phrases of word count × the fixed `0.1`
weight (`keywordScore`); and in every case the returned confidence lies in
`[0, 1]`. -/
theorem C6_rule_phase_classifier (user_query : String) :
    (0 ≤ (classifyWithRules user_query).2 ∧ (classifyWithRules user_query).2 ≤ 1) ∧
    ((∀ p ∈ intentKeywords, ∀ kw ∈ p.2, strContains user_query kw = false) →
      classifyWithRules user_query = (.GENERAL_QUERY, 3 / 10)) ∧
    ((∃ p ∈ intentKeywords, ∃ kw ∈ p.2, strContains user_query kw = true) →
      ((classifyWithRules user_query).2
          = min (intentScore user_query (classifyWithRules user_query).1) 1 ∧
        ∀ p ∈ intentKeywords,
          keywordScore user_query p.2
            ≤ intentScore user_query (classifyWithRules user_query).1)) := by
  rcases hm : argmaxFirst (ruleScores user_query) with _ | best
  · have hcl : classifyWithRules user_query = (.GENERAL_QUERY, 3 / 10) := by
      unfold classifyWithRules
      rw [hm]
    have hempty : ruleScores user_query = [] := by
      cases hrs : ruleScores user_query with
      | nil => rfl
      | cons x xs => rw [hrs] at hm; simp [argmaxFirst] at hm
    refine ⟨?_, fun _ => hcl, ?_⟩
    · rw [hcl]
      norm_num
    · rintro ⟨p, hp, kw, hkw, hc⟩
      exfalso
      have hwc : 0 < ((kw.splitOn " ").length : ℚ) := by
        exact_mod_cast wc_pos p hp kw hkw
      have hpos := keywordScore_pos user_query p.2 kw hkw hc hwc
      have hmem := ruleScores_of_pos hp hpos
      rw [hempty] at hmem
      exact List.not_mem_nil _ hmem
  · have hcl : classifyWithRules user_query = (best.1, min best.2 1) := by
      unfold classifyWithRules
      rw [hm]
    obtain ⟨hbm, hge⟩ := argmaxFirst_spec _ _ hm
    obtain ⟨hbpos, p, hp, hp1, hp2⟩ := mem_ruleScores_pos hbm
    have hbs : intentScore user_query best.1 = best.2 := by
      rw [← hp1, intentScore_table user_query p hp, hp2]
    refine ⟨?_, ?_, fun _ => ⟨?_, ?_⟩⟩
    · rw [hcl]
      exact ⟨le_min (le_of_lt hbpos) (by norm_num), min_le_right _ _⟩
    · intro hnone
      exfalso
      have hz : keywordScore user_query p.2 = 0 :=
        keywordScore_zero user_query p.2 fun kw hkw => hnone p hp kw hkw
      rw [hz] at hp2
      exact absurd hp2 (ne_of_lt hbpos)
    · rw [hcl]
      show min best.2 1 = min (intentScore user_query best.1) 1
      rw [hbs]
    · intro p' hp'
      rw [hcl]
      show keywordScore user_query p'.2 ≤ intentScore user_query best.1
      rw [hbs]
      by_cases hps : 0 < keywordScore user_query p'.2
      · exact hge _ (ruleScores_of_pos hp' hps)
      · push_neg at hps
        exact le_trans hps (le_of_lt hbpos)

/-- Closed instantiation of `C6_rule_phase_classifier`: `"hello"` matches
nothing and yields `general`/`0.3`; `"budget"` matches and the confidence
is the clamped score of the winning intent. -/
theorem C6_rule_phase_classifier_witness :
    classifyWithRules "hello" = (.GENERAL_QUERY, 3 / 10) ∧
    (classifyWithRules "budget").2
      = min (intentScore "budget" (classifyWithRules "budget").1) 1 :=
  ⟨(C6_rule_phase_classifier "hello").2.1 (by with_unfolding_all decide),
   ((C6_rule_phase_classifier "budget").2.2 (by with_unfolding_all decide)).1⟩

/-! ## Claim C5 — model-assisted escalation -/

/-- **C5.**  For every non-empty normalised query: (a) when the rule-phase
confidence reaches the adaptive threshold (`0.5` for recognised demo
accounts, `0.7` otherwise) the model collaborator is never consulted — the
outcome is oracle-independent and is the rule result; (b) below the
threshold the model result is adopted exactly when its confidence strictly
exceeds the rule-phase confidence, the rule result being kept on ties; and
(c) consequently the returned confidence is always at least the rule-phase
confidence. -/
theorem C5_escalation_monotone (llm : String → LlmReply) (pt : ℚ) (s : AgentState)
    (hq : classifierQuery s ≠ "") :
    (adaptiveThreshold (isDemoUser s) ≤ (classifyWithRules (classifierQuery s)).2 →
      (∀ llm' : String → LlmReply, classifierCall llm pt s = classifierCall llm' pt s) ∧
      (classifierCall llm pt s).intent = (classifyWithRules (classifierQuery s)).1.value ∧
      (classifierCall llm pt s).confidence_score
        = (classifyWithRules (classifierQuery s)).2) ∧
    ((classifyWithRules (classifierQuery s)).2 < adaptiveThreshold (isDemoUser s) →
      ((classifyWithLlm (llm (classifierQuery s))).2
          > (classifyWithRules (classifierQuery s)).2 →
        (classifierCall llm pt s).intent
            = (classifyWithLlm (llm (classifierQuery s))).1.value ∧
        (classifierCall llm pt s).confidence_score
            = (classifyWithLlm (llm (classifierQuery s))).2) ∧
      ((classifyWithLlm (llm (classifierQuery s))).2
          ≤ (classifyWithRules (classifierQuery s)).2 →
        (classifierCall llm pt s).intent = (classifyWithRules (classifierQuery s)).1.value ∧
        (classifierCall llm pt s).confidence_score
            = (classifyWithRules (classifierQuery s)).2)) ∧
    (classifyWithRules (classifierQuery s)).2 ≤ (classifierCall llm pt s).confidence_score := by
  refine ⟨fun hth => ⟨fun llm' => ?_, ?_⟩, fun hth => ⟨fun hgt => ?_, fun hle => ?_⟩, ?_⟩
  · have hnot := not_lt.mpr hth
    simp [classifierCall, hq, hnot]
  · have hnot := not_lt.mpr hth
    simp [classifierCall, hq, hnot]
  · simp [classifierCall, hq, hth, hgt]
  · have hnot := not_lt.mpr hle
    simp [classifierCall, hq, hth, hnot]
  · by_cases hth : (classifyWithRules (classifierQuery s)).2
        < adaptiveThreshold (isDemoUser s)
    · by_cases hgt : (classifyWithLlm (llm (classifierQuery s))).2
          > (classifyWithRules (classifierQuery s)).2
      · have := le_of_lt hgt
        simp [classifierCall, hq, hth, hgt]
        linarith
      · simp [classifierCall, hq, hth, hgt]
    · simp [classifierCall, hq, hth]

/-- A demo-account state: the profile email ends in `@example.com`, so the
threshold is `0.5`; the query scores `0.1` rule-phase. -/
def demoState : AgentState :=
  { user_profile := some { user_id := "demo", email := some "alice@example.com" }
    user_query := "budget" }

/-- Closed instantiation of `C5_escalation_monotone` on the demo state with
an LLM oracle that fails: the rule result is kept and monotonicity holds. -/
theorem C5_escalation_monotone_witness :
    (classifierCall (fun _ => .invalidJson) 0 demoState).confidence_score
        = (classifyWithRules (classifierQuery demoState)).2 ∧
    (classifyWithRules (classifierQuery demoState)).2
        ≤ (classifierCall (fun _ => .invalidJson) 0 demoState).confidence_score := by
  have h := C5_escalation_monotone (fun _ => .invalidJson) 0 demoState
    (by with_unfolding_all decide)
  exact ⟨(((h.2.1 (by with_unfolding_all decide)).2 (by with_unfolding_all decide))).2,
    h.2.2⟩

/-! ## Claim C7 — classification errors fail closed -/

/-- **C7.**  Every error on the classification path is converted to intent
`unknown` with confidence `0.0` instead of escaping: (a) the LLM phase maps
every failing reply (invoke raise, JSON decode failure, non-object result,
unknown intent name) to `(UNKNOWN, 0.0)` inside its own boundary; (b) the
`__call__` boundary turns the empty-query validation failure into intent
`unknown`, confidence `0.0` and a set `error_message`.  Both functions are
total, so classification never raises past its boundary. -/
theorem C7_errors_fail_closed :
    (∀ reply : LlmReply, reply.isFailure = true →
      classifyWithLlm reply = (.UNKNOWN, 0)) ∧
    (∀ (llm : String → LlmReply) (pt : ℚ) (s : AgentState), classifierQuery s = "" →
      (classifierCall llm pt s).intent = FinancialIntent.UNKNOWN.value ∧
      (classifierCall llm pt s).confidence_score = 0 ∧
      (classifierCall llm pt s).error_message = some "Empty query provided") := by
  constructor
  · intro reply h
    cases reply with
    | raised m => rfl
    | invalidJson => rfl
    | nonDict => rfl
    | parsed name conf =>
      simp only [LlmReply.isFailure, Option.isNone_iff_eq_none] at h
      simp [classifyWithLlm, h]
  · intro llm pt s h
    refine ⟨?_, ?_, ?_⟩ <;> simp [classifierCall, h]

/-- Closed instantiation of `C7_errors_fail_closed`: an unparsable LLM
reply degrades to `(UNKNOWN, 0)`, and an empty query degrades the call. -/
theorem C7_errors_fail_closed_witness :
    classifyWithLlm .invalidJson = (.UNKNOWN, 0) ∧
    (classifierCall (fun _ => .invalidJson) 0 {}).intent
        = FinancialIntent.UNKNOWN.value :=
  ⟨C7_errors_fail_closed.1 .invalidJson rfl,
   (C7_errors_fail_closed.2 (fun _ => .invalidJson) 0 {} (by with_unfolding_all decide)).1⟩

/-! ## Claim C2 — node-failure isolation -/

/-- The goal planner's frame: it preserves `error_message`, finishes with its
own `current_node`, appends exactly its identifier to `tools_used`, and
leaves every `analysis_results` entry other than its own two keys
untouched. -/
theorem goalPlanner_frame (s : AgentState) :
    (goalPlannerCall s).error_message = s.error_message ∧
    (goalPlannerCall s).current_node = "goal_planner" ∧
    (goalPlannerCall s).tools_used = s.tools_used ++ ["goal_planner"] ∧
    ∀ k, k ≠ "goals_analysis" → k ≠ "goal_recommendations" →
      (goalPlannerCall s).analysis_results.lookup k = s.analysis_results.lookup k := by
  by_cases hg : goalKeywords.any fun kw => strContains s.user_query.toLower kw
  · refine ⟨by simp [goalPlannerCall, hg], by simp [goalPlannerCall, hg],
      by simp [goalPlannerCall, hg], ?_⟩
    intro k h1 h2
    simp only [goalPlannerCall, hg, if_pos]
    rw [lookup_dictInsert_of_ne _ _ _ _ h2, lookup_dictInsert_of_ne _ _ _ _ h1]
  · refine ⟨by simp [goalPlannerCall, hg], by simp [goalPlannerCall, hg],
      by simp [goalPlannerCall, hg], ?_⟩
    intro k h1 h2
    simp [goalPlannerCall, hg]
    rw [lookup_dictInsert_of_ne _ _ _ _ h1]

/-- **C2.**  On the MVP chain `statement_parser → budget_analyzer →
goal_planner` (`core/workflow.py` lines 119-122), whenever the middle
node's internal analysis raises (`analyzeBudget` errors on the state's
transactions), the middle node catches its own failure: `error_message`
carries the exception message, the run still completes the chain (the
terminal-side node `goal_planner` runs, leaving its `current_node` mark and
appending its identifier), and the first node's `analysis_results` entry is
unchanged in the final state. -/
theorem C2_node_failure_isolation (s0 : AgentState) (txs : List Txn) (e : String)
    (hkw : (parseKeywords.any fun kw => strContains s0.user_query.toLower kw) = false)
    (htx : s0.financial_data.transactions = some txs)
    (hne : txs.isEmpty = false)
    (herr : analyzeBudget txs = .error e) :
    (mvpChain s0).error_message = some e ∧
    (mvpChain s0).analysis_results.lookup "statement_note"
        = some (.statementNote "No financial data provided for parsing") ∧
    (mvpChain s0).current_node = "goal_planner" ∧
    (mvpChain s0).tools_used = s0.tools_used ++ ["goal_planner"] := by
  have hA : statementParserCall s0
      = { s0 with
            analysis_results := dictInsert s0.analysis_results "statement_note"
              (.statementNote "No financial data provided for parsing")
            current_node := "statement_parser" } := by
    simp [statementParserCall, hkw]
  have hB : budgetAnalyzerCall (statementParserCall s0)
      = { statementParserCall s0 with error_message := some e } := by
    rw [hA]
    simp [budgetAnalyzerCall, htx, hne, herr]
  obtain ⟨ge, gc, gt, gl⟩ := goalPlanner_frame (budgetAnalyzerCall (statementParserCall s0))
  refine ⟨?_, ?_, gc, ?_⟩
  · show (goalPlannerCall (budgetAnalyzerCall (statementParserCall s0))).error_message
        = some e
    rw [ge, hB]
  · show (goalPlannerCall (budgetAnalyzerCall (statementParserCall s0))).analysis_results.lookup
        "statement_note" = some (.statementNote "No financial data provided for parsing")
    rw [gl _ (by decide) (by decide), hB, hA]
    exact lookup_dictInsert_same _ _ _
  · show (goalPlannerCall (budgetAnalyzerCall (statementParserCall s0))).tools_used
        = s0.tools_used ++ ["goal_planner"]
    rw [gt, hB, hA]

/-- A transactions entry whose `category` key is missing: `_analyze_budget`
raises `KeyError('category')` on it. -/
def failTxn : Txn := { amount := some (-50) }

/-- A state whose query triggers neither the statement parser's nor any
failure in the first node, and whose pre-loaded transactions make the
budget analyzer's internal logic raise. -/
def c2State : AgentState :=
  { user_query := "hi", financial_data := { transactions := some [failTxn] } }

/-- Closed instantiation of `C2_node_failure_isolation`: the missing
`category` key surfaces as `error_message` while the first node's entry
survives. -/
theorem C2_node_failure_isolation_witness :
    (mvpChain c2State).error_message = some "'category'" ∧
    (mvpChain c2State).analysis_results.lookup "statement_note"
        = some (.statementNote "No financial data provided for parsing") := by
  have h := C2_node_failure_isolation c2State [failTxn] "'category'"
    (by with_unfolding_all decide) rfl rfl (by with_unfolding_all rfl)
  exact ⟨h.1, h.2.1⟩

end XFair
